import Mathlib

/-!
Shallow embedding of the BenGo fintech backend (Python/FastAPI sources) and
verification of the frozen specification claims about its ledger, risk gate,
payments, registration and audit-log code paths.

Python Decimal amounts are modelled as exact rationals (ℚ): Decimal
arithmetic on the amounts appearing here (addition, subtraction, comparison)
is exact, so ℚ is a faithful model. Database sessions are modelled as
explicit state records; raising an HTTPException is modelled as an
Except.error carrying the HTTP status code.
-/

namespace Ledger
/- Embedding of backend/shared/utils/ledger.py. -/

/-- Account types in double-entry accounting (ledger.py, class AccountType). -/
inductive AccountType where
  | ASSET
  | LIABILITY
  | EQUITY
  | REVENUE
  | EXPENSE
deriving DecidableEq, Repr

/-- Transaction types (ledger.py, class TransactionType): the direction of a
ledger entry. -/
inductive TransactionType where
  | DEBIT
  | CREDIT
deriving DecidableEq, Repr

/-- A ledger entry in double-entry accounting (ledger.py, class LedgerEntry).
Decimal amount modelled as ℚ. -/
structure LedgerEntry where
  account_id : String
  account_type : AccountType
  transaction_type : TransactionType
  amount : ℚ
  currency : String
  description : Option String
  reference : Option String
deriving DecidableEq, Repr

/-- Sum of amounts of the DEBIT entries, mirroring the generator expression
`sum(entry.amount for entry in self.entries if entry.transaction_type ==
TransactionType.DEBIT)` in DoubleEntryTransaction._validate_balance. -/
def totalDebits (entries : List LedgerEntry) : ℚ :=
  ((entries.filter fun e => e.transaction_type = TransactionType.DEBIT).map
    fun e => e.amount).sum

/-- Sum of amounts of the CREDIT entries in _validate_balance. -/
def totalCredits (entries : List LedgerEntry) : ℚ :=
  ((entries.filter fun e => e.transaction_type = TransactionType.CREDIT).map
    fun e => e.amount).sum

/-- The balance check performed by DoubleEntryTransaction._validate_balance
(ledger.py lines 66-81): true exactly when the constructor does NOT raise
ValueError, i.e. when total debits equal total credits. The sums range over
all entries regardless of their currency field. -/
def validateBalance (entries : List LedgerEntry) : Bool :=
  decide (totalDebits entries = totalCredits entries)

/-- A double-entry transaction (ledger.py, class DoubleEntryTransaction). -/
structure DoubleEntryTransaction where
  transaction_id : String
  entries : List LedgerEntry
deriving DecidableEq, Repr

/-- Constructor of DoubleEntryTransaction: `__init__` calls _validate_balance,
which raises ValueError when debits and credits differ; modelled as Except. -/
def mkDoubleEntryTransaction (transaction_id : String)
    (entries : List LedgerEntry) : Except String DoubleEntryTransaction :=
  if validateBalance entries then
    Except.ok { transaction_id := transaction_id, entries := entries }
  else
    Except.error ("Transaction " ++ transaction_id ++ " is not balanced")

/-- Debit total restricted to one currency. -/
def debitTotalIn (c : String) (entries : List LedgerEntry) : ℚ :=
  ((entries.filter fun e =>
      e.transaction_type = TransactionType.DEBIT ∧ e.currency = c).map
    fun e => e.amount).sum

/-- Credit total restricted to one currency. -/
def creditTotalIn (c : String) (entries : List LedgerEntry) : ℚ :=
  ((entries.filter fun e =>
      e.transaction_type = TransactionType.CREDIT ∧ e.currency = c).map
    fun e => e.amount).sum

/-- Per-currency balance as the specification words it: for every currency in
the group, the debit sum equals the credit sum in that currency. This is the
spec-side definition, to be compared with validateBalance from the source. -/
def balancedPerCurrency (entries : List LedgerEntry) : Bool :=
  entries.all fun e =>
    decide (debitTotalIn e.currency entries = creditTotalIn e.currency entries)

/-- Relabel the currency of every entry, leaving direction and amount alone. -/
def mapCurrency (f : String → String) (entries : List LedgerEntry) :
    List LedgerEntry :=
  entries.map fun e => { e with currency := f e.currency }

/-- A cross-currency candidate group that balances only in aggregate:
a 100 NGN debit against a 100 USD credit. -/
def crossCurrencyGroup : List LedgerEntry :=
  [ { account_id := "acct-a", account_type := AccountType.ASSET,
      transaction_type := TransactionType.DEBIT, amount := 100,
      currency := "NGN", description := none, reference := none },
    { account_id := "acct-b", account_type := AccountType.ASSET,
      transaction_type := TransactionType.CREDIT, amount := 100,
      currency := "USD", description := none, reference := none } ]

/-- A candidate group whose two entries both carry a negative amount; its
debit and credit sums are equal. -/
def negativeAmountGroup : List LedgerEntry :=
  [ { account_id := "acct-a", account_type := AccountType.ASSET,
      transaction_type := TransactionType.DEBIT, amount := -5,
      currency := "NGN", description := none, reference := none },
    { account_id := "acct-b", account_type := AccountType.ASSET,
      transaction_type := TransactionType.CREDIT, amount := -5,
      currency := "NGN", description := none, reference := none } ]

end Ledger

namespace TxnModel
/- Embedding of backend/shared/models/transaction.py: the transactions table
schema as declared by the ORM model, including which column constraints it
does and does not impose. -/

/-- Transaction types (transaction.py, class TransactionType). -/
inductive TransactionType where
  | P2P
  | BANK_TRANSFER
  | TUITION
  | CRYPTO_FUND
  | CRYPTO_CONVERT
  | CARD_PAYMENT
  | LOAN_DISBURSEMENT
  | LOAN_REPAYMENT
  | TRAVEL_BOOKING
  | REWARD_EARNED
  | REWARD_REDEEMED
deriving DecidableEq, Repr

/-- Transaction statuses (transaction.py, class TransactionStatus). -/
inductive TransactionStatus where
  | PENDING
  | PROCESSING
  | COMPLETED
  | FAILED
  | CANCELLED
  | REVERSED
deriving DecidableEq, Repr

/-- A row of the transactions table (transaction.py, class Transaction plus
the id primary key from BaseModel). Columns declared nullable=True become
Option; Numeric(20, 2) amounts become ℚ. -/
structure TransactionRow where
  id : String
  user_id : String
  transaction_type : TransactionType
  status : TransactionStatus
  amount : ℚ
  currency : String
  fee : ℚ
  net_amount : ℚ
  recipient_id : Option String
  description : Option String
  reference : Option String
  transaction_metadata : Option String
deriving DecidableEq, Repr

/-- The uniqueness constraints the transactions table declares: only the
primary key id (BaseModel, base.py line 21) is unique. The reference column
(transaction.py line 46) is declared `nullable=True, index=True` with NO
`unique=True`, so a table state with repeated references satisfies every
declared constraint. -/
def transactionsTableAdmissible (rows : List TransactionRow) : Bool :=
  decide (rows.map fun r => r.id).Nodup

/-- Number of committed (COMPLETED) transactions carrying a given idempotency
reference. -/
def committedCountWithReference (rows : List TransactionRow)
    (ref : Option String) : Nat :=
  (rows.filter fun r =>
    r.status = TransactionStatus.COMPLETED ∧ r.reference = ref).length

/-- A concrete committed transaction row carrying reference ref-1. -/
def dupRow1 : TransactionRow :=
  { id := "100000000001", user_id := "u1",
    transaction_type := TransactionType.P2P,
    status := TransactionStatus.COMPLETED, amount := 300, currency := "NGN",
    fee := 0, net_amount := 300, recipient_id := some "u2",
    description := none, reference := some "ref-1",
    transaction_metadata := none }

/-- A second committed transaction row, distinct id, same reference ref-1. -/
def dupRow2 : TransactionRow :=
  { id := "100000000002", user_id := "u1",
    transaction_type := TransactionType.P2P,
    status := TransactionStatus.COMPLETED, amount := 300, currency := "NGN",
    fee := 0, net_amount := 300, recipient_id := some "u2",
    description := none, reference := some "ref-1",
    transaction_metadata := none }

end TxnModel

namespace Validation
/- Embedding of backend/shared/utils/validation.py together with the limit
and sanction settings it reads from backend/shared/config.py. -/

/-- Python str.strip(): remove leading and trailing whitespace. Defined on
the character list so that concrete instances evaluate by kernel
reduction. -/
def pyStrip (s : String) : String :=
  ⟨((s.data.dropWhile Char.isWhitespace).reverse.dropWhile
      Char.isWhitespace).reverse⟩

/-- Python str.upper() on the ASCII region codes used here. -/
def pyUpper (s : String) : String :=
  ⟨s.data.map Char.toUpper⟩

/-- Settings.min_transaction_amount default (config.py line 71). -/
def min_transaction_amount : ℚ := 100

/-- Settings.max_transaction_amount default (config.py line 72). -/
def max_transaction_amount : ℚ := 10000000

/-- Settings.sanctioned_regions_list computed from the default
`sanctioned_regions = "IR,KR,CU,SY"` (config.py lines 75-80). -/
def sanctioned_regions_list : List String := ["IR", "KR", "CU", "SY"]

/-- validate_amount (validation.py lines 29-35): checks the amount against the
configured limits and returns (is_valid, optional error message). The Python
signature takes the amount as a float; the comparison is modelled exactly
over ℚ. -/
def validate_amount (amount : ℚ) : Bool × Option String :=
  if amount < min_transaction_amount then
    (false, some "Amount must be at least the minimum transaction amount")
  else if amount > max_transaction_amount then
    (false, some "Amount cannot exceed the maximum transaction amount")
  else
    (true, none)

/-- validate_region (validation.py lines 38-42): a region is rejected when its
upper-cased code is in the sanctioned list. -/
def validate_region (region_code : String) : Bool × Option String :=
  if sanctioned_regions_list.contains (pyUpper region_code) then
    (false, some ("Service not available in " ++ region_code))
  else
    (true, none)

end Validation

namespace Payments
/- Embedding of backend/services/payments/main.py, endpoint p2p_transfer
(lines 91-118). The database session is modelled by the sender wallet's
available balance and by the list of ledger postings the call writes; the
endpoint body contains only TODO comments in place of balance checks and
ledger writes, so the model threads that state through unchanged. -/

/-- Payment statuses (payments/main.py, class PaymentStatus). -/
inductive PaymentStatus where
  | PENDING
  | PROCESSING
  | COMPLETED
  | FAILED
  | CANCELLED
deriving DecidableEq, Repr

/-- P2P transfer request body (payments/main.py, class P2PTransferRequest). -/
structure P2PTransferRequest where
  recipient_id : String
  amount : ℚ
  currency : String
  description : Option String
deriving DecidableEq, Repr

/-- Payment response body (payments/main.py, class PaymentResponse). -/
structure PaymentResponse where
  payment_id : String
  status : PaymentStatus
  amount : ℚ
  currency : String
  fee : ℚ
  net_amount : ℚ
deriving DecidableEq, Repr

/-- Outcome of a p2p_transfer call: the HTTP response (error status code or
PaymentResponse), the ledger postings written by the call, and the sender
wallet's available balance after the call. -/
structure P2POutcome where
  response : Except Nat PaymentResponse
  postingsWritten : List Ledger.LedgerEntry
  senderAvailableAfter : ℚ
deriving Repr

/-- p2p_transfer (payments/main.py lines 91-118): validates the amount via
validate_amount and otherwise returns a PROCESSING response with fee 0.00 and
net_amount = amount - fee. The sender's balance is never read or debited and
no ledger entries are created (the corresponding steps are TODO comments in
the source). -/
def p2p_transfer (transfer : P2PTransferRequest) (senderAvailable : ℚ) :
    P2POutcome :=
  let v := Validation.validate_amount transfer.amount
  if v.1 = false then
    { response := Except.error 400, postingsWritten := [],
      senderAvailableAfter := senderAvailable }
  else
    let fee : ℚ := 0
    { response := Except.ok
        { payment_id := "payment_id_placeholder",
          status := PaymentStatus.PROCESSING,
          amount := transfer.amount, currency := transfer.currency,
          fee := fee, net_amount := transfer.amount - fee },
      postingsWritten := [],
      senderAvailableAfter := senderAvailable }

end Payments

namespace Risk
/- Embedding of backend/services/risk/main.py, endpoint
assess_transaction_risk (lines 85-133). -/

/-- Risk levels (risk/main.py, class RiskLevel). -/
inductive RiskLevel where
  | LOW
  | MEDIUM
  | HIGH
  | CRITICAL
deriving DecidableEq, Repr

/-- Transaction types accepted by the risk service (risk/main.py). -/
inductive TransactionType where
  | P2P
  | BANK_TRANSFER
  | CRYPTO
  | CARD
  | LOAN
deriving DecidableEq, Repr

/-- Risk assessment request (risk/main.py, class RiskAssessmentRequest).
The optional metadata dict is modelled as an association list. -/
structure RiskAssessmentRequest where
  user_id : String
  transaction_type : TransactionType
  amount : ℚ
  currency : String
  recipient_id : Option String
  metadata : Option (List (String × String))
deriving DecidableEq, Repr

/-- Risk assessment response (risk/main.py, class RiskAssessmentResponse).
The float risk_score is modelled as ℚ: the only scores the code builds are
0.0 and 0.0 + 30 = 30.0, on which float arithmetic is exact. -/
structure RiskAssessmentResponse where
  risk_score : ℚ
  risk_level : RiskLevel
  approved : Bool
  reasons : List String
  requires_verification : Bool
deriving DecidableEq, Repr

/-- The score accumulation of assess_transaction_risk (lines 97-104):
risk_score starts at 0.0 and the single implemented check adds 30 with reason
"Large transaction amount" when float(amount) > 1000000; every other risk
rule is a TODO comment. -/
def riskScoreOf (amount : ℚ) : ℚ × List String :=
  if amount > 1000000 then (0 + 30, ["Large transaction amount"])
  else (0, [])

/-- The banding chain of assess_transaction_risk (lines 111-125): maps the
accumulated risk_score to (risk_level, approved, requires_verification). -/
def riskBand (risk_score : ℚ) : RiskLevel × Bool × Bool :=
  if risk_score < 30 then (RiskLevel.LOW, true, false)
  else if risk_score < 60 then (RiskLevel.MEDIUM, true, true)
  else if risk_score < 80 then (RiskLevel.HIGH, false, true)
  else (RiskLevel.CRITICAL, false, true)

/-- assess_transaction_risk (risk/main.py lines 85-133): accumulate the score
and reasons, band the score, and return the response. -/
def assess_transaction_risk (assessment : RiskAssessmentRequest) :
    RiskAssessmentResponse :=
  let sc := riskScoreOf assessment.amount
  let band := riskBand sc.1
  { risk_score := sc.1, risk_level := band.1, approved := band.2.1,
    reasons := sc.2, requires_verification := band.2.2 }

end Risk

namespace NumRepr
/- The numeric representation each money-path value is declared with in the
source: the ORM columns (SQLAlchemy Numeric of fixed scale) and the
validation and risk-scoring code, which convert amounts to Python float. -/

/-- A numeric representation: fixed-point decimal with a given number of
decimal places, or binary floating point. -/
inductive NumRep where
  | fixedDecimal (places : Nat)
  | floatingPoint
deriving DecidableEq, Repr

/-- Whether a representation is fixed-point decimal. -/
def NumRep.isFixedDecimal : NumRep → Bool
  | NumRep.fixedDecimal _ => true
  | NumRep.floatingPoint => false

/-- Wallet.balance is Numeric(20, 2) (wallet.py line 22). -/
def walletBalanceRep : NumRep := NumRep.fixedDecimal 2

/-- Wallet.pending_balance is Numeric(20, 2) (wallet.py line 23). -/
def walletPendingBalanceRep : NumRep := NumRep.fixedDecimal 2

/-- LedgerEntry.amount is Numeric(20, 2) (wallet.py line 39). -/
def ledgerEntryAmountRep : NumRep := NumRep.fixedDecimal 2

/-- Transaction.amount is Numeric(20, 2) (transaction.py line 40). -/
def transactionAmountRep : NumRep := NumRep.fixedDecimal 2

/-- CryptoBalance.balance is Numeric(20, 8) (crypto.py line 29). -/
def cryptoBalanceRep : NumRep := NumRep.fixedDecimal 8

/-- validate_amount takes its amount parameter as a Python float
(validation.py line 29, signature amount: float), and its callers pass
float(transfer.amount) (payments/main.py lines 99, 129, 166). -/
def validateAmountArgRep : NumRep := NumRep.floatingPoint

/-- The risk score comparison uses float(assessment.amount) > 1000000
(risk/main.py line 102). -/
def riskAmountCheckRep : NumRep := NumRep.floatingPoint

/-- The representations an amount passes through on the money path: wallet
and ledger storage, transaction storage, crypto storage, amount validation
and risk scoring. -/
def moneyPathReps : List NumRep :=
  [walletBalanceRep, walletPendingBalanceRep, ledgerEntryAmountRep,
   transactionAmountRep, cryptoBalanceRep, validateAmountArgRep,
   riskAmountCheckRep]

end NumRepr

namespace Gateway
/- Embedding of backend/api_gateway/main.py: the register endpoint
(lines 202-279), the admin suspend_user endpoint (lines 843-889) and the
create_audit_log helper (lines 1298-1313). The SQLAlchemy session is
modelled as the committed database state plus the pending, not yet
committed changes; commit applies the pending changes and rollback discards
them. -/

/-- KYC statuses (user.py, class KYCStatus). -/
inductive KYCStatus where
  | PENDING
  | IN_PROGRESS
  | VERIFIED
  | REJECTED
deriving DecidableEq, Repr

/-- Wallet statuses (wallet.py, class WalletStatus). -/
inductive WalletStatus where
  | ACTIVE
  | SUSPENDED
  | CLOSED
deriving DecidableEq, Repr

/-- A row of the users table (user.py, class User; OAuth and password-reset
columns not read by the modelled endpoints are omitted). -/
structure UserRow where
  id : String
  email : String
  phone : Option String
  password_hash : Option String
  first_name : String
  last_name : String
  country_code : String
  kyc_status : KYCStatus
  is_active : Bool
  is_verified : Bool
deriving DecidableEq, Repr

/-- A row of the wallets table (wallet.py, class Wallet). -/
structure WalletRow where
  id : String
  user_id : String
  currency : String
  balance : ℚ
  pending_balance : ℚ
  status : WalletStatus
deriving DecidableEq, Repr

/-- A row of the admin_audit_logs table (api_gateway/main.py, class
AdminAuditLog, lines 1285-1295). -/
structure AuditRow where
  admin_id : String
  admin_email : String
  action : String
  target_type : Option String
  target_id : Option String
  details : Option String
deriving DecidableEq, Repr

/-- Committed database state seen by the gateway endpoints. -/
structure GatewayDb where
  users : List UserRow
  wallets : List WalletRow
  audit_logs : List AuditRow
deriving DecidableEq, Repr

/-- Registration request body (api_gateway/main.py, class UserRegister). -/
structure UserRegister where
  email : String
  phone : String
  password : String
  first_name : String
  last_name : String
  country_code : String
deriving DecidableEq, Repr

/-- Registration response body (api_gateway/main.py, class UserResponse). -/
structure UserResponse where
  id : String
  email : String
  phone : String
  first_name : String
  last_name : String
  kyc_status : KYCStatus
  is_active : Bool
deriving DecidableEq, Repr

/-- Outcome of a register call: HTTP error status or response, and the
database state after the call. -/
structure RegisterOutcome where
  response : Except Nat UserResponse
  db : GatewayDb
deriving Repr

/-- register (api_gateway/main.py lines 202-279). The generated numeric user
id, wallet id and the computed password hash are passed in as parameters.
Checks in source order: phone present with at least 5 characters after
strip, country not sanctioned (validate_region), no existing user with the
same email or phone; then inserts the user row and committs, then inserts
the default NGN wallet with zero balances (status takes the column default
ACTIVE, wallet.py line 24) and commits. -/
def register (user_data : UserRegister) (db : GatewayDb)
    (newUserId newWalletId password_hash : String) : RegisterOutcome :=
  if (Validation.pyStrip user_data.phone).length < 5 then
    { response := Except.error 400, db := db }
  else if (Validation.validate_region user_data.country_code).1 = false then
    { response := Except.error 403, db := db }
  else if db.users.any fun u =>
      u.email = user_data.email ∨ u.phone = some user_data.phone then
    { response := Except.error 400, db := db }
  else
    let new_user : UserRow :=
      { id := newUserId, email := user_data.email,
        phone := some user_data.phone,
        password_hash := some password_hash,
        first_name := user_data.first_name,
        last_name := user_data.last_name,
        country_code := user_data.country_code,
        kyc_status := KYCStatus.PENDING,
        is_active := true, is_verified := false }
    let default_wallet : WalletRow :=
      { id := newWalletId, user_id := newUserId, currency := "NGN",
        balance := 0, pending_balance := 0, status := WalletStatus.ACTIVE }
    { response := Except.ok
        { id := newUserId, email := new_user.email,
          phone := user_data.phone, first_name := new_user.first_name,
          last_name := new_user.last_name, kyc_status := new_user.kyc_status,
          is_active := new_user.is_active },
      db := { users := db.users ++ [new_user],
              wallets := db.wallets ++ [default_wallet],
              audit_logs := db.audit_logs } }

/-- A SQLAlchemy session over the gateway database: the committed state plus
pending (flushed on commit, discarded on rollback) is_active updates and
audit-log inserts. -/
structure SessionState where
  committed : GatewayDb
  pendingActive : List (String × Bool)
  pendingAudit : List AuditRow
deriving DecidableEq, Repr

/-- Apply pending is_active updates to the users table. -/
def applyActive (users : List UserRow) (upds : List (String × Bool)) :
    List UserRow :=
  upds.foldl
    (fun us p => us.map fun u =>
      if u.id = p.1 then { u with is_active := p.2 } else u)
    users

/-- db.commit(): flush every pending change into the committed state. -/
def SessionState.commit (s : SessionState) : SessionState :=
  { committed :=
      { users := applyActive s.committed.users s.pendingActive,
        wallets := s.committed.wallets,
        audit_logs := s.committed.audit_logs ++ s.pendingAudit },
    pendingActive := [], pendingAudit := [] }

/-- db.rollback(): discard every pending change. -/
def SessionState.rollback (s : SessionState) : SessionState :=
  { s with pendingActive := [], pendingAudit := [] }

/-- create_audit_log (api_gateway/main.py lines 1298-1313): builds the audit
row and commits it; if the write raises, the exception is caught, logged and
the session rolled back — the caller never sees the failure. writeFails
says whether the underlying audit insert raises. -/
def create_audit_log (db : SessionState) (admin_id admin_email action : String)
    (target_type target_id details : Option String) (writeFails : Bool) :
    SessionState :=
  if writeFails then
    db.rollback
  else
    SessionState.commit
      { db with pendingAudit := db.pendingAudit ++
          [{ admin_id := admin_id, admin_email := admin_email,
             action := action, target_type := target_type,
             target_id := target_id, details := details }] }

/-- The admin email allowlist hard-coded in the admin endpoints
(api_gateway/main.py lines 857, 906). -/
def adminEmails : List String := ["admin@bengo.com", "emzzygee000@gmail.com"]

/-- Outcome of a suspend_user call: HTTP error status or success message,
and the session after the call. -/
structure SuspendOutcome where
  response : Except Nat String
  session : SessionState
deriving Repr

/-- suspend_user (api_gateway/main.py lines 843-889): resolves the calling
admin, checks the allowlist, resolves the target user, marks it inactive in
the session, writes the audit log via create_audit_log (which swallows its
own failure), commits, and returns a success message. -/
def suspend_user (user_id : String) (currentUserId : String)
    (db : SessionState) (auditWriteFails : Bool) : SuspendOutcome :=
  match db.committed.users.find? fun u => u.id = currentUserId with
  | none => { response := Except.error 404, session := db }
  | some current_user =>
    if ¬ adminEmails.contains current_user.email then
      { response := Except.error 403, session := db }
    else
      match db.committed.users.find? fun u => u.id = user_id with
      | none => { response := Except.error 404, session := db }
      | some target_user =>
        let s1 : SessionState :=
          { db with pendingActive := db.pendingActive ++ [(user_id, false)] }
        let s2 := create_audit_log s1 currentUserId current_user.email
          "SUSPEND_USER" (some "user") (some user_id)
          (some ("Suspended user " ++ target_user.email)) auditWriteFails
        let s3 := s2.commit
        { response := Except.ok "User suspended successfully", session := s3 }

end Gateway

/-- Relabeling currencies does not change the debit total: the sums in
_validate_balance never read the currency field. -/
theorem totalDebits_mapCurrency (f : String → String)
    (es : List Ledger.LedgerEntry) :
    Ledger.totalDebits (Ledger.mapCurrency f es) = Ledger.totalDebits es := by
  induction es with
  | nil => rfl
  | cons e es ih =>
    by_cases h : e.transaction_type = Ledger.TransactionType.DEBIT
    · simp [Ledger.mapCurrency, Ledger.totalDebits, List.filter_cons, h] at ih ⊢
      exact ih
    · simp [Ledger.mapCurrency, Ledger.totalDebits, List.filter_cons, h] at ih ⊢
      exact ih

/-- Relabeling currencies does not change the credit total. -/
theorem totalCredits_mapCurrency (f : String → String)
    (es : List Ledger.LedgerEntry) :
    Ledger.totalCredits (Ledger.mapCurrency f es) = Ledger.totalCredits es := by
  induction es with
  | nil => rfl
  | cons e es ih =>
    by_cases h : e.transaction_type = Ledger.TransactionType.CREDIT
    · simp [Ledger.mapCurrency, Ledger.totalCredits, List.filter_cons, h] at ih ⊢
      exact ih
    · simp [Ledger.mapCurrency, Ledger.totalCredits, List.filter_cons, h] at ih ⊢
      exact ih

/-- C1 counterexample: the cross-currency group pairing a 100 NGN debit with
a 100 USD credit is NOT balanced per currency, yet _validate_balance accepts
it and the DoubleEntryTransaction constructor admits it, because the sums in
ledger.py lines 66-81 ignore the currency field. -/
theorem validate_balance_admits_cross_currency :
    Ledger.validateBalance Ledger.crossCurrencyGroup = true ∧
    Ledger.balancedPerCurrency Ledger.crossCurrencyGroup = false ∧
    Ledger.mkDoubleEntryTransaction "txn-1" Ledger.crossCurrencyGroup =
      Except.ok { transaction_id := "txn-1",
                  entries := Ledger.crossCurrencyGroup } := by
  have hv : Ledger.validateBalance Ledger.crossCurrencyGroup = true := by
    simp [Ledger.validateBalance, Ledger.crossCurrencyGroup,
      Ledger.totalDebits, Ledger.totalCredits, List.filter]
  refine ⟨hv, ?_, ?_⟩
  · simp [Ledger.balancedPerCurrency, Ledger.crossCurrencyGroup,
      Ledger.debitTotalIn, Ledger.creditTotalIn, List.filter]
  · simp [Ledger.mkDoubleEntryTransaction, hv]

/-- C1 amended: the double-entry validator admits a candidate group exactly
when the aggregate sum of debit amounts equals the aggregate sum of credit
amounts across all currencies; it is blind to currencies, so relabeling the
currency of every posting never changes the verdict. -/
theorem validate_balance_aggregate_only :
    (∀ es, Ledger.validateBalance es = true ↔
      Ledger.totalDebits es = Ledger.totalCredits es) ∧
    (∀ es f, Ledger.validateBalance (Ledger.mapCurrency f es) =
      Ledger.validateBalance es) := by
  constructor
  · intro es
    simp [Ledger.validateBalance]
  · intro es f
    simp [Ledger.validateBalance, totalDebits_mapCurrency,
      totalCredits_mapCurrency]

/-- Instantiation of validate_balance_aggregate_only on the concrete
cross-currency group and a constant currency relabeling. -/
theorem validate_balance_aggregate_only_witness :
    Ledger.validateBalance
        (Ledger.mapCurrency (fun _ => "NGN") Ledger.crossCurrencyGroup) =
      Ledger.validateBalance Ledger.crossCurrencyGroup ∧
    Ledger.validateBalance Ledger.crossCurrencyGroup = true :=
  ⟨validate_balance_aggregate_only.2 Ledger.crossCurrencyGroup (fun _ => "NGN"),
   (validate_balance_aggregate_only.1 Ledger.crossCurrencyGroup).2
     (by simp [Ledger.crossCurrencyGroup, Ledger.totalDebits,
       Ledger.totalCredits, List.filter])⟩

/-- C4 counterexample: a candidate group whose postings all carry a strictly
negative amount is admitted by _validate_balance, since the only check in
ledger.py lines 66-81 is that the two sums agree; no positivity check and no
account existence or status check exists. -/
theorem validate_balance_admits_negative_amounts :
    Ledger.validateBalance Ledger.negativeAmountGroup = true ∧
    (Ledger.negativeAmountGroup.all fun e => decide (e.amount < 0)) = true ∧
    Ledger.mkDoubleEntryTransaction "txn-2" Ledger.negativeAmountGroup =
      Except.ok { transaction_id := "txn-2",
                  entries := Ledger.negativeAmountGroup } := by
  have hv : Ledger.validateBalance Ledger.negativeAmountGroup = true := by
    simp [Ledger.validateBalance, Ledger.negativeAmountGroup,
      Ledger.totalDebits, Ledger.totalCredits, List.filter]
  refine ⟨hv, ?_, ?_⟩
  · simp [Ledger.negativeAmountGroup, List.all]
  · simp [Ledger.mkDoubleEntryTransaction, hv]

/-- C4 amended: the validator checks nothing beyond equality of the two
aggregate sums: a two-posting group debiting and crediting the same
non-positive amount is admitted, for any pair of account ids (the validator
receives no account store, so existence and closure are never consulted). -/
theorem validate_balance_no_positivity_check (a : ℚ) (acc1 acc2 : String)
    (_h : a ≤ 0) :
    Ledger.validateBalance
      [ { account_id := acc1, account_type := Ledger.AccountType.ASSET,
          transaction_type := Ledger.TransactionType.DEBIT, amount := a,
          currency := "NGN", description := none, reference := none },
        { account_id := acc2, account_type := Ledger.AccountType.ASSET,
          transaction_type := Ledger.TransactionType.CREDIT, amount := a,
          currency := "NGN", description := none, reference := none } ] =
      true := by
  simp [Ledger.validateBalance, Ledger.totalDebits, Ledger.totalCredits,
    List.filter]

/-- Instantiation of validate_balance_no_positivity_check at amount -5. -/
theorem validate_balance_no_positivity_check_witness :
    Ledger.validateBalance
      [ { account_id := "no-such-account",
          account_type := Ledger.AccountType.ASSET,
          transaction_type := Ledger.TransactionType.DEBIT, amount := -5,
          currency := "NGN", description := none, reference := none },
        { account_id := "closed-account",
          account_type := Ledger.AccountType.ASSET,
          transaction_type := Ledger.TransactionType.CREDIT, amount := -5,
          currency := "NGN", description := none, reference := none } ] =
      true :=
  validate_balance_no_positivity_check (-5) "no-such-account" "closed-account"
    (by norm_num)

/-- C2 counterexample: a transactions-table state holding two distinct
COMPLETED rows that carry the same idempotency reference satisfies every
constraint the schema declares, so the same reference can label two
committed transactions. -/
theorem duplicate_reference_table_admissible :
    TxnModel.transactionsTableAdmissible [TxnModel.dupRow1, TxnModel.dupRow2]
      = true ∧
    TxnModel.committedCountWithReference [TxnModel.dupRow1, TxnModel.dupRow2]
      (some "ref-1") = 2 := by
  constructor
  · decide
  · decide

/-- C2 amended: the schema enforces no at-most-once semantics on the
reference column: any two rows with distinct primary keys form an admissible
table state regardless of their reference values or statuses. -/
theorem reference_not_unique (r1 r2 : TxnModel.TransactionRow)
    (h : r1.id ≠ r2.id) :
    TxnModel.transactionsTableAdmissible [r1, r2] = true := by
  simp [TxnModel.transactionsTableAdmissible, List.Nodup, h]

/-- Instantiation of reference_not_unique on the two concrete duplicate
rows. -/
theorem reference_not_unique_witness :
    TxnModel.transactionsTableAdmissible [TxnModel.dupRow1, TxnModel.dupRow2]
      = true :=
  reference_not_unique TxnModel.dupRow1 TxnModel.dupRow2 (by decide)

/-- C3: evaluation of p2p_transfer at the failing input of the claim: a
100.00 NGN debit request against a wallet holding 50.00 NGN. The endpoint
passes amount validation (100 is within the configured limits), never reads
the balance, and returns a PROCESSING response instead of FAILED with
InsufficientFunds; no ledger postings are written and the sender balance is
untouched because the corresponding steps are TODO stubs. -/
theorem p2p_transfer_no_balance_check :
    Payments.p2p_transfer
      { recipient_id := "wallet-b", amount := 100, currency := "NGN",
        description := none } 50 =
    { response := Except.ok
        { payment_id := "payment_id_placeholder",
          status := Payments.PaymentStatus.PROCESSING,
          amount := 100, currency := "NGN", fee := 0, net_amount := 100 - 0 },
      postingsWritten := [],
      senderAvailableAfter := 50 } := by
  simp [Payments.p2p_transfer, Validation.validate_amount,
    Validation.min_transaction_amount, Validation.max_transaction_amount]
  norm_num

/-- C5: the banding chain of assess_transaction_risk maps every score to its
level and decision by the fixed bands of risk/main.py lines 111-125: below
30 LOW and approved without verification; in [30, 60) MEDIUM, approved, with
requires_verification; in [60, 80) HIGH and not approved; at 80 or above
CRITICAL and not approved. -/
theorem risk_band_fixed_bands (s : ℚ) :
    (s < 30 → Risk.riskBand s = (Risk.RiskLevel.LOW, true, false)) ∧
    (30 ≤ s → s < 60 →
      Risk.riskBand s = (Risk.RiskLevel.MEDIUM, true, true)) ∧
    (60 ≤ s → s < 80 →
      Risk.riskBand s = (Risk.RiskLevel.HIGH, false, true)) ∧
    (80 ≤ s → Risk.riskBand s = (Risk.RiskLevel.CRITICAL, false, true)) := by
  refine ⟨fun h => ?_, fun h1 h2 => ?_, fun h1 h2 => ?_, fun h1 => ?_⟩
  · simp [Risk.riskBand, h]
  · have h3 : ¬ s < 30 := by linarith
    simp [Risk.riskBand, h3, h2]
  · have h3 : ¬ s < 30 := by linarith
    have h4 : ¬ s < 60 := by linarith
    simp [Risk.riskBand, h3, h4, h2]
  · have h3 : ¬ s < 30 := by linarith
    have h4 : ¬ s < 60 := by linarith
    have h5 : ¬ s < 80 := by linarith
    simp [Risk.riskBand, h3, h4, h5]

/-- Instantiation of risk_band_fixed_bands at scores 0, 45, 70 and 85, one
in each band. -/
theorem risk_band_fixed_bands_witness :
    Risk.riskBand 0 = (Risk.RiskLevel.LOW, true, false) ∧
    Risk.riskBand 45 = (Risk.RiskLevel.MEDIUM, true, true) ∧
    Risk.riskBand 70 = (Risk.RiskLevel.HIGH, false, true) ∧
    Risk.riskBand 85 = (Risk.RiskLevel.CRITICAL, false, true) :=
  ⟨(risk_band_fixed_bands 0).1 (by norm_num),
   (risk_band_fixed_bands 45).2.1 (by norm_num) (by norm_num),
   (risk_band_fixed_bands 70).2.2.1 (by norm_num) (by norm_num),
   (risk_band_fixed_bands 85).2.2.2 (by norm_num)⟩

/-- C6: evaluation of assess_transaction_risk on a 2,000,000 NGN transfer:
the only implemented rule fires (amount above 1,000,000), so the computed
score is 30 — not 85 — the level is MEDIUM, and the transaction is approved
with requires_verification; it is not rejected. -/
theorem risk_two_million_scores_thirty :
    Risk.assess_transaction_risk
      { user_id := "u1", transaction_type := Risk.TransactionType.P2P,
        amount := 2000000, currency := "NGN", recipient_id := none,
        metadata := none } =
    { risk_score := 30, risk_level := Risk.RiskLevel.MEDIUM,
      approved := true, reasons := ["Large transaction amount"],
      requires_verification := true } := by
  simp [Risk.assess_transaction_risk, Risk.riskScoreOf, Risk.riskBand]
  norm_num

/-- C7: for every request, the computed risk score is 0 when the amount is
at most 1,000,000 and 30 otherwise; hence the returned level is always LOW
or MEDIUM and approved is always true — assess_transaction_risk can never
return HIGH or CRITICAL and never denies a transaction. -/
theorem risk_gate_never_denies (req : Risk.RiskAssessmentRequest) :
    (req.amount ≤ 1000000 →
      (Risk.assess_transaction_risk req).risk_score = 0) ∧
    (1000000 < req.amount →
      (Risk.assess_transaction_risk req).risk_score = 30) ∧
    ((Risk.assess_transaction_risk req).risk_level = Risk.RiskLevel.LOW ∨
     (Risk.assess_transaction_risk req).risk_level = Risk.RiskLevel.MEDIUM) ∧
    (Risk.assess_transaction_risk req).approved = true := by
  by_cases h : (1000000 : ℚ) < req.amount
  · refine ⟨fun hle => absurd h (not_lt.mpr hle), fun _ => ?_, ?_, ?_⟩
    · simp [Risk.assess_transaction_risk, Risk.riskScoreOf, h]
    · right
      simp [Risk.assess_transaction_risk, Risk.riskScoreOf, Risk.riskBand, h]
      norm_num
    · simp [Risk.assess_transaction_risk, Risk.riskScoreOf, Risk.riskBand, h]
      norm_num
  · refine ⟨fun _ => ?_, fun hgt => absurd hgt h, ?_, ?_⟩
    · simp [Risk.assess_transaction_risk, Risk.riskScoreOf, h]
    · left
      simp [Risk.assess_transaction_risk, Risk.riskScoreOf, Risk.riskBand, h]
    · simp [Risk.assess_transaction_risk, Risk.riskScoreOf, Risk.riskBand, h]

/-- Instantiation of risk_gate_never_denies at a 500 NGN request. -/
theorem risk_gate_never_denies_witness :
    (Risk.assess_transaction_risk
      { user_id := "u1", transaction_type := Risk.TransactionType.P2P,
        amount := 500, currency := "NGN", recipient_id := none,
        metadata := none }).risk_score = 0 ∧
    (Risk.assess_transaction_risk
      { user_id := "u1", transaction_type := Risk.TransactionType.P2P,
        amount := 500, currency := "NGN", recipient_id := none,
        metadata := none }).approved = true :=
  ⟨(risk_gate_never_denies _).1 (by norm_num),
   (risk_gate_never_denies _).2.2.2⟩

/-- C8 counterexample: the money path is not float-free — the amount
validation routine takes its amount as a Python float and the risk check
compares float(amount), so not every representation on the money path is
fixed-point decimal. -/
theorem money_path_uses_float :
    NumRepr.validateAmountArgRep = NumRepr.NumRep.floatingPoint ∧
    NumRepr.riskAmountCheckRep = NumRepr.NumRep.floatingPoint ∧
    NumRepr.moneyPathReps.all NumRepr.NumRep.isFixedDecimal = false := by
  refine ⟨rfl, rfl, by decide⟩

/-- C8 amended: the stored balances and amounts do use fixed decimal
precision (Numeric(20, 2) for fiat columns, Numeric(20, 8) for the crypto
balance), but amounts are converted to floating point at amount validation
and at the risk-scoring comparison. -/
theorem storage_fixed_but_validation_floats :
    (NumRepr.walletBalanceRep = NumRepr.NumRep.fixedDecimal 2 ∧
     NumRepr.walletPendingBalanceRep = NumRepr.NumRep.fixedDecimal 2 ∧
     NumRepr.ledgerEntryAmountRep = NumRepr.NumRep.fixedDecimal 2 ∧
     NumRepr.transactionAmountRep = NumRepr.NumRep.fixedDecimal 2 ∧
     NumRepr.cryptoBalanceRep = NumRepr.NumRep.fixedDecimal 8) ∧
    (NumRepr.validateAmountArgRep = NumRepr.NumRep.floatingPoint ∧
     NumRepr.riskAmountCheckRep = NumRepr.NumRep.floatingPoint) :=
  ⟨⟨rfl, rfl, rfl, rfl, rfl⟩, rfl, rfl⟩

/-- C9: register rejects a sanctioned-region registration with HTTP 403 and
leaves the database untouched (the region check precedes every insert), and
every successful registration appends exactly one user row and exactly one
wallet row — the default NGN wallet with 0.00 available balance, 0.00
pending balance and ACTIVE status, owned by the new user. -/
theorem register_creates_single_ngn_wallet (user_data : Gateway.UserRegister)
    (db : Gateway.GatewayDb) (uid wid hash : String) :
    (¬ (Validation.pyStrip user_data.phone).length < 5 →
      Validation.sanctioned_regions_list.contains
        (Validation.pyUpper user_data.country_code) = true →
      Gateway.register user_data db uid wid hash =
        { response := Except.error 403, db := db }) ∧
    (∀ resp db',
      Gateway.register user_data db uid wid hash =
        { response := Except.ok resp, db := db' } →
      db'.wallets = db.wallets ++
        [ { id := wid, user_id := uid, currency := "NGN", balance := 0,
            pending_balance := 0, status := Gateway.WalletStatus.ACTIVE } ] ∧
      db'.users.length = db.users.length + 1 ∧
      db'.audit_logs = db.audit_logs) := by
  constructor
  · intro hp hs
    have hs' : Validation.pyUpper user_data.country_code ∈
        Validation.sanctioned_regions_list := by simpa using hs
    simp [Gateway.register, hp, Validation.validate_region, hs']
  · intro resp db' h
    by_cases h1 : (Validation.pyStrip user_data.phone).length < 5
    · simp [Gateway.register, h1] at h
    · by_cases h2 : (Validation.validate_region user_data.country_code).1
        = false
      · simp [Gateway.register, h1, h2] at h
      · by_cases h3 : ∃ x ∈ db.users,
            x.email = user_data.email ∨ x.phone = some user_data.phone
        · simp [Gateway.register, h1, h2, h3] at h
        · simp [Gateway.register, h1, h2, h3] at h
          obtain ⟨hresp, hdb⟩ := h
          rw [← hdb]
          simp

/-- Instantiation of register_creates_single_ngn_wallet: a registration from
sanctioned region IR is refused with the database unchanged, and a
registration from NG on an empty database creates exactly the default NGN
wallet. -/
theorem register_creates_single_ngn_wallet_witness :
    Gateway.register
      { email := "a@b.com", phone := "08012345678", password := "pw",
        first_name := "Ada", last_name := "Obi", country_code := "IR" }
      { users := [], wallets := [], audit_logs := [] } "u1" "w1" "h1" =
      { response := Except.error 403,
        db := { users := [], wallets := [], audit_logs := [] } } ∧
    ({ users := [ { id := "u1", email := "a@b.com",
                    phone := some "08012345678", password_hash := some "h1",
                    first_name := "Ada", last_name := "Obi",
                    country_code := "NG",
                    kyc_status := Gateway.KYCStatus.PENDING,
                    is_active := true, is_verified := false } ],
       wallets := [ { id := "w1", user_id := "u1", currency := "NGN",
                      balance := 0, pending_balance := 0,
                      status := Gateway.WalletStatus.ACTIVE } ],
       audit_logs := [] } : Gateway.GatewayDb).wallets =
      ([] : List Gateway.WalletRow) ++
        [ { id := "w1", user_id := "u1", currency := "NGN", balance := 0,
            pending_balance := 0, status := Gateway.WalletStatus.ACTIVE } ] :=
  ⟨(register_creates_single_ngn_wallet
      { email := "a@b.com", phone := "08012345678", password := "pw",
        first_name := "Ada", last_name := "Obi", country_code := "IR" }
      { users := [], wallets := [], audit_logs := [] } "u1" "w1" "h1").1
      (by decide) (by decide),
   ((register_creates_single_ngn_wallet
      { email := "a@b.com", phone := "08012345678", password := "pw",
        first_name := "Ada", last_name := "Obi", country_code := "NG" }
      { users := [], wallets := [], audit_logs := [] } "u1" "w1" "h1").2
      { id := "u1", email := "a@b.com", phone := "08012345678",
        first_name := "Ada", last_name := "Obi",
        kyc_status := Gateway.KYCStatus.PENDING, is_active := true }
      { users := [ { id := "u1", email := "a@b.com",
                     phone := some "08012345678", password_hash := some "h1",
                     first_name := "Ada", last_name := "Obi",
                     country_code := "NG",
                     kyc_status := Gateway.KYCStatus.PENDING,
                     is_active := true, is_verified := false } ],
        wallets := [ { id := "w1", user_id := "u1", currency := "NGN",
                       balance := 0, pending_balance := 0,
                       status := Gateway.WalletStatus.ACTIVE } ],
        audit_logs := [] } (by rfl)).1⟩

/-- C10: when the audit-log write raises during suspend_user, the helper
create_audit_log swallows the exception and rolls the session back; the
endpoint still returns the success message, yet neither the audit record nor
the is_active = False change reaches the committed state, because the
rollback discards the whole pending session. -/
theorem suspend_user_audit_failure_silent (db : Gateway.SessionState)
    (adminId uid : String) (admin : Gateway.UserRow)
    (hadmin : db.committed.users.find? (fun u => u.id = adminId) = some admin)
    (hallow : Gateway.adminEmails.contains admin.email = true)
    (htarget : (db.committed.users.find? fun u => u.id = uid).isSome = true) :
    (Gateway.suspend_user uid adminId db true).response =
      Except.ok "User suspended successfully" ∧
    (Gateway.suspend_user uid adminId db true).session.committed =
      db.committed := by
  obtain ⟨target, ht⟩ := Option.isSome_iff_exists.mp htarget
  have hallow' : admin.email ∈ Gateway.adminEmails := by simpa using hallow
  constructor
  · simp [Gateway.suspend_user, hadmin, hallow', ht,
      Gateway.create_audit_log, Gateway.SessionState.rollback,
      Gateway.SessionState.commit, Gateway.applyActive]
  · simp [Gateway.suspend_user, hadmin, hallow', ht,
      Gateway.create_audit_log, Gateway.SessionState.rollback,
      Gateway.SessionState.commit, Gateway.applyActive]

/-- Instantiation of suspend_user_audit_failure_silent: the allowlisted
admin suspends user u2 while the audit write fails; the call reports success
and the committed state is unchanged. -/
theorem suspend_user_audit_failure_silent_witness :
    (Gateway.suspend_user "u2" "u1"
      { committed :=
          { users := [ { id := "u1", email := "admin@bengo.com",
                         phone := none, password_hash := some "h",
                         first_name := "Ad", last_name := "Min",
                         country_code := "NG",
                         kyc_status := Gateway.KYCStatus.VERIFIED,
                         is_active := true, is_verified := true },
                       { id := "u2", email := "b@c.com", phone := none,
                         password_hash := some "h2", first_name := "Bola",
                         last_name := "Eze", country_code := "NG",
                         kyc_status := Gateway.KYCStatus.PENDING,
                         is_active := true, is_verified := false } ],
            wallets := [], audit_logs := [] },
        pendingActive := [], pendingAudit := [] } true).response =
      Except.ok "User suspended successfully" ∧
    (Gateway.suspend_user "u2" "u1"
      { committed :=
          { users := [ { id := "u1", email := "admin@bengo.com",
                         phone := none, password_hash := some "h",
                         first_name := "Ad", last_name := "Min",
                         country_code := "NG",
                         kyc_status := Gateway.KYCStatus.VERIFIED,
                         is_active := true, is_verified := true },
                       { id := "u2", email := "b@c.com", phone := none,
                         password_hash := some "h2", first_name := "Bola",
                         last_name := "Eze", country_code := "NG",
                         kyc_status := Gateway.KYCStatus.PENDING,
                         is_active := true, is_verified := false } ],
            wallets := [], audit_logs := [] },
        pendingActive := [], pendingAudit := [] } true).session.committed =
      { users := [ { id := "u1", email := "admin@bengo.com", phone := none,
                     password_hash := some "h", first_name := "Ad",
                     last_name := "Min", country_code := "NG",
                     kyc_status := Gateway.KYCStatus.VERIFIED,
                     is_active := true, is_verified := true },
                   { id := "u2", email := "b@c.com", phone := none,
                     password_hash := some "h2", first_name := "Bola",
                     last_name := "Eze", country_code := "NG",
                     kyc_status := Gateway.KYCStatus.PENDING,
                     is_active := true, is_verified := false } ],
        wallets := [], audit_logs := [] } :=
  suspend_user_audit_failure_silent
    { committed :=
        { users := [ { id := "u1", email := "admin@bengo.com", phone := none,
                       password_hash := some "h", first_name := "Ad",
                       last_name := "Min", country_code := "NG",
                       kyc_status := Gateway.KYCStatus.VERIFIED,
                       is_active := true, is_verified := true },
                     { id := "u2", email := "b@c.com", phone := none,
                       password_hash := some "h2", first_name := "Bola",
                       last_name := "Eze", country_code := "NG",
                       kyc_status := Gateway.KYCStatus.PENDING,
                       is_active := true, is_verified := false } ],
          wallets := [], audit_logs := [] },
      pendingActive := [], pendingAudit := [] } "u1" "u2"
    { id := "u1", email := "admin@bengo.com", phone := none,
      password_hash := some "h", first_name := "Ad", last_name := "Min",
      country_code := "NG", kyc_status := Gateway.KYCStatus.VERIFIED,
      is_active := true, is_verified := true }
    (by decide) (by decide) (by decide)
